import Mathlib

/-!
Shallow embedding of the claude_data_summarizer repository (src/agent.py and
src/app.py) and proofs about the claims of its specification.

Conventions of the embedding:
- Python dicts with a fixed key set become Lean structures; a key whose value
  may be absent or None becomes an `Option` field.
- The LLM HTTP boundary (`client.messages.create`) is abstracted as a function
  `Request → LLMOutcome` passed to the orchestrator: its argument is the exact
  request the source builds, and its value is either a parsed response or one
  of the exception classes raised by the SDK.
- A Python function that can raise returns `PyResult`.
- Python string operations `.lower()` and `needle in haystack` are modelled by
  `pyLower` and `pyContains` over the character lists of the strings.
-/

namespace ClaudeDataSummarizer

/-- Exceptions that the embedded code can propagate to its caller. -/
inductive PyExn where
  | nameError (name : String)
  | attributeError (msg : String)
  deriving DecidableEq, Repr

/-- Result of running a Python function: a normal return value or a raised
exception propagating out of the function. -/
inductive PyResult (α : Type) where
  | ok (a : α)
  | raises (e : PyExn)
  deriving DecidableEq, Repr

/-- agent.py line 6 reads `from anthropic import Anthropic`: this binds only
the name `Anthropic` in the module namespace. The module name `anthropic` is
never bound (there is no `import anthropic` statement anywhere in agent.py,
lines 1-16). Consequently, when any exception escapes a `try` body, evaluating
the first except clause expression `anthropic.APIConnectionError` raises
`NameError: name 'anthropic' is not defined`, and that NameError propagates —
by Python semantics an exception raised while evaluating an except clause of a
`try` statement is not handled by the remaining clauses of the same statement. -/
def anthropicNameBound : Bool := false

/-- Evaluation of the except-clause chain of agent.py (lines 245-292 and
115-166): were `anthropic` bound, the matching handler body would produce
`handlerValue`; with `anthropic` unbound the clause evaluation itself raises
NameError, which propagates. -/
def exceptAnthropicClause {α : Type} (handlerValue : PyResult α) : PyResult α :=
  if anthropicNameBound then handlerValue else .raises (.nameError "anthropic")

/-! ## String primitives (Python `.lower()` and `in`) -/

/-- `pySubstrAux needle hay` is true iff `needle` occurs contiguously in
`hay`: the model of Python `needle in hay` for strings. -/
def pySubstrAux (needle : List Char) : List Char → Bool
  | [] => needle.isEmpty
  | c :: t => needle.isPrefixOf (c :: t) || pySubstrAux needle t

/-- Python `needle in haystack` on strings. -/
def pyContains (haystack needle : String) : Bool :=
  pySubstrAux needle.data haystack.data

/-- Python `s.lower()` (the questions and keywords involved are ASCII). -/
def pyLower (s : String) : String := String.mk (s.data.map Char.toLower)

/-! ## Visualization-intent classifier (app.py lines 99-151) -/

/-- app.py line 116: `creation_keywords`. -/
def creation_keywords : List String :=
  ["create", "generate", "make", "draw", "build",
   "show me a", "can you plot", "can you create",
   "another", "different", "new", "alternative"]

/-- app.py line 123: `question_keywords`. -/
def question_keywords : List String :=
  ["what is the", "what\x27s the", "explain", "why",
   "how does", "tell me about", "describe"]

/-- app.py line 129: `code_keywords`. -/
def code_keywords : List String := ["code", "python", "script", "show me the code"]

/-- app.py line 138: the chart nouns tested inside the question-keyword branch. -/
def chart_nouns : List String := ["plot", "chart", "graph"]

/-- app.py line 140: the newness words tested inside the question-keyword branch. -/
def newness_words : List String := ["another", "different", "new"]

/-- app.py line 146: the visualization keywords of the final branch. -/
def viz_keywords : List String :=
  ["plot", "chart", "graph", "visualiz", "scatter",
   "histogram", "heatmap", "box", "bar", "line"]

/-- app.py lines 99-151, `detect_visualization_intent`: lowercases the
question; returns False on any code keyword; inside the question-keyword
branch returns True only when a chart noun and a newness word co-occur;
otherwise requires a creation keyword and a visualization keyword. -/
def detect_visualization_intent (question : String) : Bool :=
  let question_lower := pyLower question
  if code_keywords.any (fun kw => pyContains question_lower kw) then
    false
  else if question_keywords.any (fun kw => pyContains question_lower kw) then
    if chart_nouns.any (fun w => pyContains question_lower w) then
      if newness_words.any (fun w => pyContains question_lower w) then
        true
      else false
    else false
  else
    creation_keywords.any (fun kw => pyContains question_lower kw) &&
      viz_keywords.any (fun w => pyContains question_lower w)

/-! ## Tool schema (agent.py lines 23-79) -/

/-- JSON-like values, enough to transcribe the `summary_tool` dict literally. -/
inductive SchemaVal where
  | str (s : String)
  | obj (fields : List (String × SchemaVal))
  | arr (items : List SchemaVal)
  deriving Repr

/-- agent.py lines 23-31: adjacent Python string literals concatenate with no
separator, which the `++` below reproduces exactly. -/
def description : String :=
  "You are an experienced business intelligence analyst." ++
  "Generate a structured summary of dataset analysis with visualization recommendation." ++
  "Provide a natural language summary of key findings and insights, plus two recommended charts the user can create." ++
  "Provide a recommendation on the next step in the analysis for the user." ++
  "Focus on actionable insights and clear visualizations." ++
  "Return the matplotlib code to generate the charts." ++
  "Return the code as a string in a code block."

/-- agent.py lines 33-37. -/
def matplotlib_description : String :=
  "Complete executable matplotlib code that creates both charts in a figure with two subplots. " ++
  "The code should create a figure object named \x27fig\x27 and return it at the end. " ++
  "Assumes df is already loaded. Example: fig, axes = plt.subplots(1, 2, figsize=(12, 5))"

/-- agent.py lines 39-79: the `summary_tool` dict, transcribed field by field. -/
def summary_tool : SchemaVal := .obj
  [("name", .str "generate_summary"),
   ("description", .str description),
   ("input_schema", .obj
     [("type", .str "object"),
      ("properties", .obj
        [("text", .obj
           [("type", .str "string"),
            ("description", .str "Natural language summary of key findings and insights")]),
         ("next_steps", .obj
           [("type", .str "string"),
            ("description", .str "Recommendation on the next step in the analysis")]),
         ("chart_1", .obj
           [("type", .str "object"),
            ("description", .str "First recommended chart"),
            ("properties", .obj
              [("type", .obj
                 [("type", .str "string"),
                  ("description", .str "Chart type (histogram, scatter, box, bar)")]),
               ("x", .obj
                 [("type", .str "string"),
                  ("description", .str "X-axis column name")]),
               ("y", .obj
                 [("type", .str "string"),
                  ("description", .str "Y-axis column name (null for histograms)")])]),
            ("required", .arr [.str "type", .str "x"])]),
         ("chart_2", .obj
           [("type", .str "object"),
            ("description", .str "Second recommended chart"),
            ("properties", .obj
              [("type", .obj [("type", .str "string")]),
               ("x", .obj [("type", .str "string")]),
               ("y", .obj [("type", .str "string")])])]),
         ("matplotlib_code", .obj
           [("type", .str "string"),
            ("description", .str matplotlib_description)])]),
      ("required", .arr
        [.str "text", .str "next_steps", .str "chart_1", .str "chart_2",
         .str "matplotlib_code"])])]

/-- Dict field access on a schema value. -/
def lookupField : SchemaVal → String → Option SchemaVal
  | .obj fields, k => fields.lookup k
  | _, _ => none

/-- Follow a path of keys through nested schema objects. -/
def getPath : SchemaVal → List String → Option SchemaVal
  | v, [] => some v
  | v, k :: ks =>
    match lookupField v k with
    | some w => getPath w ks
    | none => none

/-- The strings of a schema array (used to read `required` lists). -/
def strItems : Option SchemaVal → List String
  | some (.arr xs) =>
    xs.filterMap fun v => match v with | .str s => some s | _ => none
  | _ => []

/-- The top-level `required` list of `summary_tool.input_schema`. -/
def inputSchemaRequired : List String :=
  strItems (getPath summary_tool ["input_schema", "required"])

/-- The `required` list of the `chart_1` sub-schema. -/
def chart1Required : List String :=
  strItems (getPath summary_tool ["input_schema", "properties", "chart_1", "required"])

/-! ## LLM boundary data (anthropic SDK shapes used by agent.py) -/

/-- A `{role, content}` message dict. -/
structure Msg where
  role : String
  content : String
  deriving DecidableEq, Repr

/-- A chart descriptor dict as produced by the model. -/
structure ChartSpec where
  ctype : String
  x : String
  y : Option String
  deriving DecidableEq, Repr

/-- The JSON input object of a `tool_use` block; every key may be absent. -/
structure ToolInput where
  text : Option String
  next_steps : Option String
  chart_1 : Option ChartSpec
  chart_2 : Option ChartSpec
  matplotlib_code : Option String
  error : Option Bool
  deriving DecidableEq, Repr

/-- One block of `response.content`. -/
inductive ContentBlock where
  | text (s : String)
  | toolUse (name : String) (input : ToolInput)
  deriving DecidableEq, Repr

/-- `response.usage`. -/
structure Usage where
  input_tokens : Nat
  output_tokens : Nat
  deriving DecidableEq, Repr

/-- A successful `client.messages.create` response. -/
structure Response where
  content : List ContentBlock
  usage : Usage
  deriving DecidableEq, Repr

/-- The `tool_choice` request field. -/
inductive ToolChoice where
  | auto
  | tool (name : String)
  deriving DecidableEq, Repr

/-- The request agent.py passes to `client.messages.create`; `tool_choice` is
`none` when the keyword argument is not passed (summarize_with_claude). -/
structure Request where
  model : String
  max_tokens : Nat
  tools : List SchemaVal
  tool_choice : Option ToolChoice
  messages : List Msg

/-- Outcome of one boundary call: a parsed response, or one of the exception
classes of the anthropic SDK raised by the call. -/
inductive LLMOutcome where
  | success (resp : Response)
  | apiConnectionError (msg : String)
  | rateLimitError (msg : String)
  | apiStatusError (status : Nat) (msg : String)
  | otherError (msg : String)
  deriving DecidableEq, Repr

/-- True on the four raising constructors. -/
def LLMOutcome.isFailure : LLMOutcome → Bool
  | .success _ => false
  | _ => true

/-! ## ask_followup_question (agent.py lines 170-292) -/

/-- agent.py lines 179-184: the body of the priming f-string after
`{df_context}`, whitespace reproduced from the source. -/
def primingSuffix : String :=
  "\n\n                You have access to a tool called \x27generate_summary\x27 that can create visualizations.\n                When the user asks for charts or plots, you MUST use the generate_summary tool to return executable matplotlib code.\n\n                Please help me analyze this data."

/-- agent.py lines 177-185: the synthetic priming user message. -/
def primingUserMsg (df_context : String) : Msg :=
  { role := "user", content := df_context ++ primingSuffix }

/-- agent.py lines 186-189: the synthetic assistant acknowledgement. -/
def primingAckMsg : Msg :=
  { role := "assistant",
    content := "I understand the dataset and will use the generate_summary tool when you need visualizations. What would you like to know?" }

/-- agent.py lines 174-202: build the outbound message list. The history
loop copies only the `role` and `content` keys of each entry, which the map
inside the fold reproduces. -/
def buildMessages (question : String) (conversation_history : List Msg)
    (df_context : String) : List Msg :=
  let ms : List Msg := [primingUserMsg df_context, primingAckMsg]
  let ms := conversation_history.foldl
    (fun acc msg => acc ++ [{ role := msg.role, content := msg.content }]) ms
  ms ++ [{ role := "user", content := question }]

/-- agent.py lines 204-208: the tool_choice dict chosen from `force_tool`. -/
def chooseToolChoice (force_tool : Bool) : ToolChoice :=
  if force_tool then .tool "generate_summary" else .auto

/-- agent.py lines 212-218: the request issued by ask_followup_question. -/
def followupRequest (question : String) (conversation_history : List Msg)
    (df_context : String) (force_tool : Bool) : Request :=
  { model := "claude-sonnet-4-20250514",
    max_tokens := 3000,
    tools := [summary_tool],
    tool_choice := some (chooseToolChoice force_tool),
    messages := buildMessages question conversation_history df_context }

/-- The result dict built by ask_followup_question (keys of lines 222-228). -/
structure FollowupResult where
  text : String
  chart_1 : Option ChartSpec
  chart_2 : Option ChartSpec
  matplotlib_code : Option String
  error : Bool
  deriving DecidableEq, Repr

/-- agent.py lines 222-228: the result dict before the parse loop. -/
def initFollowupResult : FollowupResult :=
  { text := "", chart_1 := none, chart_2 := none, matplotlib_code := none,
    error := false }

/-- agent.py lines 230-237: one iteration of the parse loop over
`response.content`: text blocks accumulate onto `text`; a generate_summary
tool_use block overwrites `text` (default "") and the chart/code fields. -/
def processBlock (r : FollowupResult) : ContentBlock → FollowupResult
  | .text s => { r with text := r.text ++ s }
  | .toolUse name input =>
    if name = "generate_summary" then
      { r with
        text := input.text.getD "",
        chart_1 := input.chart_1,
        chart_2 := input.chart_2,
        matplotlib_code := input.matplotlib_code }
    else r

/-- agent.py lines 222-243: parse a successful response and total the token
usage (`input_tokens + output_tokens`). -/
def parseFollowupResponse (resp : Response) : FollowupResult × Nat :=
  (resp.content.foldl processBlock initFollowupResult,
   resp.usage.input_tokens + resp.usage.output_tokens)

/-- agent.py lines 247-253: the connection-error handler dict. -/
def connectionErrorFollowup : FollowupResult :=
  { text := "⚠️ Connection error: Unable to reach the AI service. Please check your internet connection and try again.",
    chart_1 := none, chart_2 := none, matplotlib_code := none, error := true }

/-- agent.py lines 257-263: the rate-limit handler dict. -/
def rateLimitFollowup : FollowupResult :=
  { text := "⚠️ Rate limit reached: Too many requests. Please wait a moment and try again.",
    chart_1 := none, chart_2 := none, matplotlib_code := none, error := true }

/-- agent.py lines 267-274: the status-code message of the APIStatusError
handler of ask_followup_question, with the source's branch order. -/
def followupStatusMsg (status : Nat) : String :=
  if status = 400 then
    "⚠️ Invalid request: There was an issue with the request format. Please try rephrasing your question."
  else if status = 401 then
    "⚠️ Authentication error: API key is invalid. Please contact support."
  else if status ≥ 500 then
    "⚠️ Service temporarily unavailable: The AI service is experiencing issues. Please try again in a few moments."
  else
    "⚠️ Error " ++ toString status ++ ": An unexpected error occurred. Please try again."

/-- agent.py lines 276-282: the APIStatusError handler dict. -/
def statusErrorFollowup (status : Nat) : FollowupResult :=
  { text := followupStatusMsg status,
    chart_1 := none, chart_2 := none, matplotlib_code := none, error := true }

/-- agent.py lines 286-292: the generic Exception handler dict. -/
def unexpectedFollowup (msg : String) : FollowupResult :=
  { text := "⚠️ Unexpected error: " ++ msg ++ ". Please try again or contact support if the issue persists.",
    chart_1 := none, chart_2 := none, matplotlib_code := none, error := true }

/-- agent.py lines 170-292, `ask_followup_question`: builds the request,
issues the boundary call, parses a success, and otherwise enters the
except-clause chain (which, with `anthropic` unbound, raises NameError: see
`exceptAnthropicClause`). -/
def ask_followup_question (question : String) (conversation_history : List Msg)
    (df_context : String) (force_tool : Bool)
    (llm : Request → LLMOutcome) : PyResult (FollowupResult × Nat) :=
  match llm (followupRequest question conversation_history df_context force_tool) with
  | .success resp => .ok (parseFollowupResponse resp)
  | .apiConnectionError _ => exceptAnthropicClause (.ok (connectionErrorFollowup, 0))
  | .rateLimitError _ => exceptAnthropicClause (.ok (rateLimitFollowup, 0))
  | .apiStatusError status _ => exceptAnthropicClause (.ok (statusErrorFollowup status, 0))
  | .otherError msg => exceptAnthropicClause (.ok (unexpectedFollowup msg, 0))

/-! ## summarize_with_claude (agent.py lines 81-166) -/

/-- The fallback/error dict shape of summarize_with_claude (six fixed keys,
lines 106-113 and the handlers). -/
structure SummaryDict where
  text : String
  next_steps : String
  chart_1 : Option ChartSpec
  chart_2 : Option ChartSpec
  matplotlib_code : Option String
  error : Bool
  deriving DecidableEq, Repr

/-- The two distinct shapes summarize_with_claude can return: the raw tool
input dict alone (line 102), or a `(dict, 0)` pair (all other return paths). -/
inductive SummarizeReturn where
  | single (d : ToolInput)
  | pair (d : SummaryDict) (n : Nat)
  deriving DecidableEq, Repr

/-- agent.py lines 100-102: the loop returns the input of the first
generate_summary tool_use block, if any. -/
def findToolUse : List ContentBlock → Option ToolInput
  | [] => none
  | .text _ :: rest => findToolUse rest
  | .toolUse name input :: rest =>
    if name = "generate_summary" then some input else findToolUse rest

/-- agent.py lines 106-113: the no-tool-use fallback dict, paired with 0. -/
def noToolUseSummary : SummaryDict :=
  { text := "⚠️ Unable to generate summary. Please try again.",
    next_steps := "", chart_1 := none, chart_2 := none,
    matplotlib_code := none, error := true }

/-- agent.py lines 117-124: connection-error handler dict of
summarize_with_claude. -/
def summConnectionDict : SummaryDict :=
  { text := "⚠️ Connection error: Unable to reach the AI service. Please check your internet connection and try again.",
    next_steps := "", chart_1 := none, chart_2 := none,
    matplotlib_code := none, error := true }

/-- agent.py lines 128-135: rate-limit handler dict of summarize_with_claude. -/
def summRateLimitDict : SummaryDict :=
  { text := "⚠️ Rate limit reached: Too many requests. Please wait a moment and try again.",
    next_steps := "", chart_1 := none, chart_2 := none,
    matplotlib_code := none, error := true }

/-- agent.py lines 139-146: the status-code message of summarize_with_claude
(the 400 and 401 texts differ from the follow-up variant). -/
def summStatusMsg (status : Nat) : String :=
  if status = 400 then
    "⚠️ Invalid request: There was an issue analyzing this dataset. Please try a different dataset."
  else if status = 401 then
    "⚠️ Authentication error: API key is invalid. Please check your configuration."
  else if status ≥ 500 then
    "⚠️ Service temporarily unavailable: The AI service is experiencing issues. Please try again in a few moments."
  else
    "⚠️ Error " ++ toString status ++ ": An unexpected error occurred. Please try again."

/-- agent.py lines 148-155: APIStatusError handler dict of summarize_with_claude. -/
def summStatusDict (status : Nat) : SummaryDict :=
  { text := summStatusMsg status,
    next_steps := "", chart_1 := none, chart_2 := none,
    matplotlib_code := none, error := true }

/-- agent.py lines 159-166: generic Exception handler dict of summarize_with_claude. -/
def summUnexpectedDict (msg : String) : SummaryDict :=
  { text := "⚠️ Unexpected error: " ++ msg ++ ". Please try again or contact support if the issue persists.",
    next_steps := "", chart_1 := none, chart_2 := none,
    matplotlib_code := none, error := true }

/-- agent.py lines 88-96: the request issued by summarize_with_claude (no
tool_choice keyword is passed). -/
def summaryRequest (summary_text : String) : Request :=
  { model := "claude-sonnet-4-20250514",
    max_tokens := 1500,
    tools := [summary_tool],
    tool_choice := none,
    messages :=
      [{ role := "user",
         content := "Analyze this dataset summary and provide insights:\n\n" ++ summary_text }] }

/-- agent.py lines 81-166, `summarize_with_claude`: returns the bare tool
input dict on the tool-use path, the `(dict, 0)` pair on the no-tool-use path,
and enters the except-clause chain on a boundary exception. -/
def summarize_with_claude (summary_text : String)
    (llm : Request → LLMOutcome) : PyResult SummarizeReturn :=
  match llm (summaryRequest summary_text) with
  | .success resp =>
    match findToolUse resp.content with
    | some input => .ok (.single input)
    | none => .ok (.pair noToolUseSummary 0)
  | .apiConnectionError _ => exceptAnthropicClause (.ok (.pair summConnectionDict 0))
  | .rateLimitError _ => exceptAnthropicClause (.ok (.pair summRateLimitDict 0))
  | .apiStatusError status _ => exceptAnthropicClause (.ok (.pair (summStatusDict status) 0))
  | .otherError msg => exceptAnthropicClause (.ok (.pair (summUnexpectedDict msg) 0))

/-- app.py line 271: the caller evaluates `claude_summary.get("error")` on
whatever summarize_with_claude returned. On the bare dict this is ordinary
dict access; on the `(dict, 0)` tuple, `.get` raises AttributeError because
tuples have no such method. -/
def getErrorKey : SummarizeReturn → PyResult (Option Bool)
  | .single d => .ok d.error
  | .pair _ _ => .raises (.attributeError "tuple object has no attribute get")

/-! ## Session state and the follow-up page logic (app.py lines 162-433) -/

/-- app.py lines 420-425: one entry of `chart_history`. -/
structure ChartRecord where
  question : String
  code : Option String
  chart_1 : Option ChartSpec
  chart_2 : Option ChartSpec
  deriving DecidableEq, Repr

/-- The session state touched by the follow-up page: `followup_history`,
`chart_history` (an entry is `none` for the `None` placeholder of line 431),
and `token_count` (app.py lines 162-169). -/
structure SessionState where
  followup_history : List Msg
  chart_history : List (Option ChartRecord)
  token_count : Nat
  deriving DecidableEq, Repr

/-- app.py lines 162-169: all three keys start empty/zero. -/
def initialSession : SessionState :=
  { followup_history := [], chart_history := [], token_count := 0 }

/-- app.py line 370: `turn_count = len(st.session_state.followup_history) // 2`. -/
def turnCount (s : SessionState) : Nat := s.followup_history.length / 2

/-- app.py lines 374 and 382: the page renders the Ask input and button only
under `turn_count < 10 and token_count < 25000`; the complementary condition
`turn_count >= 10 or token_count >= 25000` shows the hard-stop error and the
Clear Chat History button instead. -/
def askAllowed (s : SessionState) : Bool :=
  decide (turnCount s < 10) && decide (s.token_count < 25000)

/-- app.py lines 376-378: the Clear Chat History button (available exactly
when the limit gate is closed) resets `followup_history` to `[]` and reruns;
`token_count` and `chart_history` are left untouched. -/
def clearAction (s : SessionState) : SessionState :=
  if askAllowed s then s else { s with followup_history := [] }

/-- app.py lines 404-425: the commit block of the Ask Claude handler, run
after `ask_followup_question` returns `(followup_result, token_count)`: add
the token delta, append the user turn and the assistant turn (content
`followup_result.get("text")`), and append one chart record built from the
result's code and chart fields. No error flag is consulted. -/
def commitExchange (s : SessionState) (followup : String)
    (r : FollowupResult) (tok : Nat) : SessionState :=
  { s with
    token_count := s.token_count + tok,
    followup_history := s.followup_history ++
      [{ role := "user", content := followup },
       { role := "assistant", content := r.text }],
    chart_history := s.chart_history ++
      [some { question := followup, code := r.matplotlib_code,
              chart_1 := r.chart_1, chart_2 := r.chart_2 }] }

/-- app.py lines 382-433: one press of the Ask Claude button with the input
box holding `followup`. Returns the new session state and whether a boundary
call was issued. The widgets only exist when `askAllowed`; an empty input
takes the `else` branch of line 427, which appends a `None` placeholder to
`chart_history` without touching the conversation; a non-empty input calls
`ask_followup_question` (forcing the tool per `detect_visualization_intent`)
and, when it returns, runs the commit block — if it raises instead, the
script run aborts with no session-state mutation (all appends come after the
call). -/
def askAction (df_context : String) (s : SessionState) (followup : String)
    (llm : Request → LLMOutcome) : SessionState × Bool :=
  if askAllowed s then
    if followup = "" then
      ({ s with chart_history := s.chart_history ++ [none] }, false)
    else
      match ask_followup_question followup s.followup_history df_context
          (detect_visualization_intent followup) llm with
      | .ok (r, tok) => (commitExchange s followup r tok, true)
      | .raises _ => (s, true)
  else (s, false)

/-- The user-level operations of the follow-up page. -/
inductive SessionOp where
  | askOp (question : String) (llm : Request → LLMOutcome) (df_context : String)
  | clearOp

/-- Apply one operation to the session state. -/
def applyOp (s : SessionState) : SessionOp → SessionState
  | .askOp q llm ctx => (askAction ctx s q llm).1
  | .clearOp => clearAction s

/-- Run a sequence of operations from a state. -/
def runOps (s : SessionState) (ops : List SessionOp) : SessionState :=
  ops.foldl applyOp s

/-- Number of assistant turns stored in `followup_history`. -/
def assistantTurns (s : SessionState) : Nat :=
  s.followup_history.countP (fun m => m.role == "assistant")

/-- The alignment invariant of spec section 3: chart records and assistant
turns are index-aligned. -/
def chartAligned (s : SessionState) : Prop :=
  s.chart_history.length = assistantTurns s

instance (s : SessionState) : Decidable (chartAligned s) := by
  unfold chartAligned; infer_instance

/-- An operation that asks a non-empty question. -/
def SessionOp.nonemptyAsk : SessionOp → Prop
  | .askOp q _ _ => q ≠ ""
  | .clearOp => False

/-! ## Helper lemmas -/

/-- Substring occurrence is preserved by mapping a function over both strings. -/
theorem pySubstrAux_map (f : Char → Char) (n : List Char) :
    ∀ h : List Char, pySubstrAux n h = true →
      pySubstrAux (n.map f) (h.map f) = true := by
  intro h
  induction h with
  | nil =>
    intro hn
    simp only [pySubstrAux, List.isEmpty_iff] at hn
    subst hn
    simp [pySubstrAux]
  | cons c t ih =>
    intro hcon
    simp only [pySubstrAux, Bool.or_eq_true] at hcon ⊢
    rcases hcon with hpre | hrest
    · left
      exact List.isPrefixOf_iff_prefix.mpr
        (by simpa using (List.isPrefixOf_iff_prefix.mp hpre).map f)
    · right
      exact ih hrest

/-- Containment in a string implies containment of the lowercased needle in
the lowercased haystack. -/
theorem pyContains_pyLower (h n : String) (hc : pyContains h n = true) :
    pyContains (pyLower h) (pyLower n) = true :=
  pySubstrAux_map Char.toLower n.data h.data hc

/-- Appending elements one by one with a fold is list concatenation. -/
theorem foldl_append_eq (l ms : List Msg) :
    l.foldl (fun acc msg => acc ++ [{ role := msg.role, content := msg.content }]) ms
      = ms ++ l := by
  induction l generalizing ms with
  | nil => simp
  | cons m t ih => simpa using ih (ms ++ [m])

/-! ## Claim theorems -/

/-- C6: for every question containing a code keyword ("code", "python",
"script", or "show me the code") case-insensitively,
detect_visualization_intent returns false, regardless of any other keywords
present. -/
theorem C6_code_keyword_blocks_intent (q kw : String)
    (hk : kw ∈ code_keywords) (hc : pyContains (pyLower q) kw = true) :
    detect_visualization_intent q = false := by
  have hany : code_keywords.any (fun k => pyContains (pyLower q) k) = true :=
    List.any_eq_true.mpr ⟨kw, hk, hc⟩
  simp [detect_visualization_intent, hany]

/-- Witness for C6 at a concrete question that also contains creation and
chart keywords. -/
theorem C6_code_keyword_blocks_intent_witness :
    detect_visualization_intent "Create another bar chart and show me the CODE" = false :=
  C6_code_keyword_blocks_intent "Create another bar chart and show me the CODE" "code"
    (by decide) (by decide)

/-- C7 counterexample: a question containing both "another" and "plot" on
which detect_visualization_intent returns false, because it also contains the
code keyword "code", which is checked first. -/
theorem C7_counterexample :
    pyContains "show me the code for another plot" "another" = true ∧
    pyContains "show me the code for another plot" "plot" = true ∧
    detect_visualization_intent "show me the code for another plot" = false := by
  decide

/-- C7 amended: for every question containing both "another" and "plot" and
containing no code keyword (case-insensitively), detect_visualization_intent
returns true. -/
theorem C7_amended_another_plot (q : String)
    (ha : pyContains q "another" = true)
    (hp : pyContains q "plot" = true)
    (hcode : code_keywords.any (fun kw => pyContains (pyLower q) kw) = false) :
    detect_visualization_intent q = true := by
  have hla : pyContains (pyLower q) "another" = true := by
    have := pyContains_pyLower q "another" ha
    rwa [show pyLower "another" = "another" from by decide] at this
  have hlp : pyContains (pyLower q) "plot" = true := by
    have := pyContains_pyLower q "plot" hp
    rwa [show pyLower "plot" = "plot" from by decide] at this
  have hchart : chart_nouns.any (fun w => pyContains (pyLower q) w) = true :=
    List.any_eq_true.mpr ⟨"plot", by decide, hlp⟩
  have hnew : newness_words.any (fun w => pyContains (pyLower q) w) = true :=
    List.any_eq_true.mpr ⟨"another", by decide, hla⟩
  have hcreate : creation_keywords.any (fun kw => pyContains (pyLower q) kw) = true :=
    List.any_eq_true.mpr ⟨"another", by decide, hla⟩
  have hviz : viz_keywords.any (fun w => pyContains (pyLower q) w) = true :=
    List.any_eq_true.mpr ⟨"plot", by decide, hlp⟩
  simp [detect_visualization_intent, hcode, hchart, hnew, hcreate, hviz]

/-- Witness for the amended C7 at a concrete question. -/
theorem C7_amended_another_plot_witness :
    detect_visualization_intent "make another plot" = true :=
  C7_amended_another_plot "make another plot" (by decide) (by decide) (by decide)

/-- C9: the outbound message list of ask_followup_question is exactly the
priming user message (df_context plus tool-usage instructions), the synthetic
assistant acknowledgement, the prior history verbatim, and the new question
as a final user message; tool_choice is the forced generate_summary tool when
force_tool is true and auto otherwise. -/
theorem C9_followup_request_shape (q df_context : String) (history : List Msg) :
    (∀ ft : Bool, (followupRequest q history df_context ft).messages =
      primingUserMsg df_context :: primingAckMsg ::
        (history ++ [{ role := "user", content := q }])) ∧
    (primingUserMsg df_context).role = "user" ∧
    (primingUserMsg df_context).content = df_context ++ primingSuffix ∧
    primingAckMsg.role = "assistant" ∧
    (followupRequest q history df_context true).tool_choice =
      some (ToolChoice.tool "generate_summary") ∧
    (followupRequest q history df_context false).tool_choice = some ToolChoice.auto := by
  refine ⟨?_, rfl, rfl, rfl, rfl, rfl⟩
  intro ft
  show buildMessages q history df_context = _
  have hb : buildMessages q history df_context =
      List.foldl (fun acc msg => acc ++ [{ role := msg.role, content := msg.content }])
        [primingUserMsg df_context, primingAckMsg] history ++
        [{ role := "user", content := q }] := rfl
  rw [hb, foldl_append_eq]
  simp

/-- C1: evaluation of the code at any failing boundary outcome. Because
agent.py never binds the module name `anthropic` (it imports only the
`Anthropic` class), every except clause of ask_followup_question raises
NameError when evaluated, so a raw NameError propagates to the caller
instead of the categorized error dict the handlers were written to return. -/
theorem C1_boundary_failure_raises (q ctx : String) (history : List Msg)
    (ft : Bool) (llm : Request → LLMOutcome)
    (hfail : (llm (followupRequest q history ctx ft)).isFailure = true) :
    ask_followup_question q history ctx ft llm =
      PyResult.raises (PyExn.nameError "anthropic") := by
  unfold ask_followup_question
  cases hout : llm (followupRequest q history ctx ft) with
  | success resp => rw [hout] at hfail; simp [LLMOutcome.isFailure] at hfail
  | apiConnectionError m => simp [exceptAnthropicClause, anthropicNameBound]
  | rateLimitError m => simp [exceptAnthropicClause, anthropicNameBound]
  | apiStatusError st m => simp [exceptAnthropicClause, anthropicNameBound]
  | otherError m => simp [exceptAnthropicClause, anthropicNameBound]

/-- Witness for C1: a connection failure makes ask_followup_question
propagate NameError. -/
theorem C1_boundary_failure_raises_witness :
    ask_followup_question "hello" [] "ctx" false
      (fun _ => LLMOutcome.apiConnectionError "down") =
      PyResult.raises (PyExn.nameError "anthropic") :=
  C1_boundary_failure_raises "hello" "ctx" [] false
    (fun _ => LLMOutcome.apiConnectionError "down") rfl

/-- C2: evaluation of the code at a 401 boundary failure. The handler text of
the source (followupStatusMsg 401) is exactly the authentication-error
message the claim expects, with the error flag set and token delta 0 — but
the handler is unreachable: the unbound name `anthropic` in the except clause
makes the function propagate NameError instead. -/
theorem C2_auth_failure_raises (q ctx : String) (history : List Msg) (ft : Bool)
    (llm : Request → LLMOutcome) (m : String)
    (h401 : llm (followupRequest q history ctx ft) = LLMOutcome.apiStatusError 401 m) :
    ask_followup_question q history ctx ft llm =
      PyResult.raises (PyExn.nameError "anthropic") ∧
    followupStatusMsg 401 =
      "⚠️ Authentication error: API key is invalid. Please contact support." ∧
    (statusErrorFollowup 401).error = true := by
  refine ⟨?_, by decide, rfl⟩
  unfold ask_followup_question
  rw [h401]
  simp [exceptAnthropicClause, anthropicNameBound]

/-- Witness for C2 at a concrete 401 failure. -/
theorem C2_auth_failure_raises_witness :
    ask_followup_question "q" [] "c" true
      (fun _ => LLMOutcome.apiStatusError 401 "unauthorized") =
      PyResult.raises (PyExn.nameError "anthropic") :=
  (C2_auth_failure_raises "q" "c" [] true
    (fun _ => LLMOutcome.apiStatusError 401 "unauthorized") "unauthorized" rfl).1

/-- A boundary stub answering with one text block and 25000 input tokens. -/
def bigResp : Response :=
  { content := [ContentBlock.text "ok"],
    usage := { input_tokens := 25000, output_tokens := 0 } }

/-- Stub boundary returning `bigResp` on every request. -/
def bigStub : Request → LLMOutcome := fun _ => LLMOutcome.success bigResp

/-- C3 counterexample: from the reachable state produced by one successful
exchange that consumes 25000 tokens, the Ask gate is closed, and it stays
closed after Clear Chat History, because the reset clears only
followup_history and not token_count; the next Ask still issues no call. -/
theorem C3_counterexample :
    askAllowed (runOps initialSession [SessionOp.askOp "hi" bigStub "ctx"]) = false ∧
    askAllowed (clearAction (runOps initialSession [SessionOp.askOp "hi" bigStub "ctx"])) = false ∧
    (askAction "ctx" (clearAction (runOps initialSession [SessionOp.askOp "hi" bigStub "ctx"]))
      "hello" bigStub).2 = false := by
  decide

/-- C3 amended: when the turn or token limit is reached, the Ask action is a
no-op that issues no boundary call; Clear Chat History resets the turn count
to zero, so after the reset new calls are permitted exactly when the
cumulative token count (which the reset does not clear) is below 25000. -/
theorem C3_amended_limit_gate (s : SessionState) (q ctx : String)
    (llm : Request → LLMOutcome) (hblocked : askAllowed s = false) :
    askAction ctx s q llm = (s, false) ∧
    askAllowed (clearAction s) = decide (s.token_count < 25000) := by
  constructor
  · unfold askAction
    simp [hblocked]
  · unfold clearAction
    simp only [hblocked, Bool.false_eq_true, if_false]
    simp [askAllowed, turnCount]

/-- Witness for the amended C3: a state blocked by the turn count alone is
unblocked by the reset. -/
theorem C3_amended_limit_gate_witness :
    askAction "c" { followup_history := List.replicate 20 { role := "user", content := "x" },
                    chart_history := [], token_count := 0 } "q" bigStub =
      ({ followup_history := List.replicate 20 { role := "user", content := "x" },
         chart_history := [], token_count := 0 }, false) ∧
    askAllowed (clearAction { followup_history := List.replicate 20 { role := "user", content := "x" },
                              chart_history := [], token_count := 0 }) = true := by
  have h := C3_amended_limit_gate
    { followup_history := List.replicate 20 { role := "user", content := "x" },
      chart_history := [], token_count := 0 } "q" "c" bigStub (by decide)
  exact ⟨h.1, by rw [h.2]; decide⟩

/-- C4 counterexample: the alignment invariant fails after an Ask with an
empty question (a None chart record is appended with no turns), and after a
Clear Chat History following a completed exchange (the turns are cleared but
the chart record remains). -/
theorem C4_counterexample :
    ¬ chartAligned (runOps initialSession [SessionOp.askOp "" bigStub "ctx"]) ∧
    ¬ chartAligned (runOps initialSession [SessionOp.askOp "hi" bigStub "ctx",
                                           SessionOp.clearOp]) := by
  decide

/-- The Ask action with a non-empty question preserves the alignment
invariant: it either commits one assistant turn together with one chart
record, or changes nothing. -/
theorem askPreservesAligned (s : SessionState) (q ctx : String)
    (llm : Request → LLMOutcome) (hq : q ≠ "") (hal : chartAligned s) :
    chartAligned (askAction ctx s q llm).1 := by
  unfold askAction
  cases hg : askAllowed s with
  | false => simpa [hg] using hal
  | true =>
    simp only [hg, if_true, hq, if_false]
    cases hcall : ask_followup_question q s.followup_history ctx
        (detect_visualization_intent q) llm with
    | raises e => simpa [hcall] using hal
    | ok p =>
      obtain ⟨r, tok⟩ := p
      simp only [hcall]
      unfold chartAligned assistantTurns at hal
      unfold chartAligned assistantTurns commitExchange
      have hu : ((("user" : String) == "assistant")) = false := by decide
      have hb : ((("assistant" : String) == "assistant")) = true := by decide
      simp [List.countP_cons, List.countP_append, hu, hb]
      omega

/-- Alignment is preserved along any run of non-empty Ask operations. -/
theorem runOpsPreserveAligned (ops : List SessionOp) :
    ∀ s : SessionState, (∀ op ∈ ops, op.nonemptyAsk) → chartAligned s →
      chartAligned (runOps s ops) := by
  induction ops with
  | nil => intro s _ hal; exact hal
  | cons op rest ih =>
    intro s hops hal
    cases op with
    | clearOp => exact absurd (hops _ (List.mem_cons_self _ _)) (by simp [SessionOp.nonemptyAsk])
    | askOp q llm ctx =>
      have hq : q ≠ "" := hops _ (List.mem_cons_self _ _)
      exact ih _ (fun o ho => hops o (List.mem_cons_of_mem _ ho))
        (askPreservesAligned s q ctx llm hq hal)

/-- C4 amended: for every sequence consisting only of Ask operations with
non-empty questions, the invariant len(chart_history) = number of assistant
turns holds after each operation (i.e. after every prefix of the sequence). -/
theorem C4_amended_alignment (ops : List SessionOp)
    (h : ∀ op ∈ ops, op.nonemptyAsk) (n : Nat) :
    chartAligned (runOps initialSession (ops.take n)) :=
  runOpsPreserveAligned (ops.take n) initialSession
    (fun op hop => h op ((List.take_prefix n ops).subset hop))
    (by decide)

/-- Witness for the amended C4 at a concrete one-exchange run. -/
theorem C4_amended_alignment_witness :
    chartAligned (runOps initialSession
      ([SessionOp.askOp "make a plot" bigStub "ctx"].take 1)) :=
  C4_amended_alignment [SessionOp.askOp "make a plot" bigStub "ctx"]
    (by
      intro op hop
      rw [List.mem_singleton] at hop
      subst hop
      simp [SessionOp.nonemptyAsk])
    1

/-- C5 counterexample: the commit block of the Ask Claude handler, applied to
a returned result whose error flag is true (the connection-error dict of the
source), extends both followup_history and chart_history — the exchange is
committed, not discarded. -/
theorem C5_counterexample :
    connectionErrorFollowup.error = true ∧
    (commitExchange initialSession "why?" connectionErrorFollowup 0).followup_history ≠
      initialSession.followup_history ∧
    (commitExchange initialSession "why?" connectionErrorFollowup 0).chart_history ≠
      initialSession.chart_history := by
  decide

/-- C5 amended: the Ask Claude handler commits unconditionally — whenever
ask_followup_question returns a (result, tokens) pair, whatever the result's
error flag, the handler appends the user turn, an assistant turn carrying the
result text, and one chart record, and adds the token delta. (When the call
raises instead of returning, the script aborts before the commit block and
nothing is appended.) -/
theorem C5_amended_unconditional_commit (s : SessionState) (q ctx : String)
    (llm : Request → LLMOutcome) (r : FollowupResult) (tok : Nat)
    (hg : askAllowed s = true) (hq : q ≠ "")
    (hret : ask_followup_question q s.followup_history ctx
      (detect_visualization_intent q) llm = PyResult.ok (r, tok)) :
    askAction ctx s q llm = (commitExchange s q r tok, true) ∧
    (commitExchange s q r tok).followup_history =
      s.followup_history ++ [{ role := "user", content := q },
                             { role := "assistant", content := r.text }] ∧
    (commitExchange s q r tok).chart_history =
      s.chart_history ++ [some { question := q, code := r.matplotlib_code,
                                 chart_1 := r.chart_1, chart_2 := r.chart_2 }] ∧
    (commitExchange s q r tok).token_count = s.token_count + tok := by
  refine ⟨?_, rfl, rfl, rfl⟩
  unfold askAction
  simp [hg, hq, hret]

/-- A boundary stub answering with one text block and 7 tokens of usage. -/
def okStub : Request → LLMOutcome := fun _ =>
  LLMOutcome.success
    { content := [ContentBlock.text "fine"],
      usage := { input_tokens := 3, output_tokens := 4 } }

/-- Witness for the amended C5 at a concrete successful exchange. -/
theorem C5_amended_unconditional_commit_witness :
    askAction "ctx" initialSession "make a plot" okStub =
      (commitExchange initialSession "make a plot"
        { text := "fine", chart_1 := none, chart_2 := none,
          matplotlib_code := none, error := false } 7, true) :=
  (C5_amended_unconditional_commit initialSession "make a plot" "ctx" okStub
    { text := "fine", chart_1 := none, chart_2 := none,
      matplotlib_code := none, error := false } 7
    (by decide) (by decide) (by decide)).1

/-- C8 counterexample: the top-level required list of the tool schema does
demand chart_2 and next_steps in every tool-forced response, and the very
same schema object is the one attached to both the follow-up and the
initial-summary requests. -/
theorem C8_counterexample :
    "chart_2" ∈ inputSchemaRequired ∧
    "next_steps" ∈ inputSchemaRequired ∧
    (followupRequest "q" [] "c" true).tools = [summary_tool] ∧
    (summaryRequest "s").tools = [summary_tool] :=
  ⟨by decide, by decide, rfl, rfl⟩

/-- C8 amended: chart_1 is required and its sub-schema requires type and x
with y present only as an optional property; but the top-level required list
is exactly [text, next_steps, chart_1, chart_2, matplotlib_code] — chart_2
and next_steps are demanded in every tool-forced response, and the single
summary_tool schema (there is no separate initial-summary variant) is
attached to both request builders. -/
theorem C8_amended_schema_required :
    inputSchemaRequired = ["text", "next_steps", "chart_1", "chart_2", "matplotlib_code"] ∧
    chart1Required = ["type", "x"] ∧
    getPath summary_tool ["input_schema", "properties", "chart_2", "required"] = none ∧
    (getPath summary_tool ["input_schema", "properties", "chart_1", "properties", "y"]).isSome = true ∧
    (followupRequest "q" [] "c" true).tools = [summary_tool] ∧
    (summaryRequest "s").tools = [summary_tool] :=
  ⟨by decide, by decide, rfl, rfl, rfl, rfl⟩

/-- C10 counterexample: on a boundary failure, summarize_with_claude does not
return a (dict, 0) pair — it propagates NameError (the except clauses
reference the unbound module name `anthropic`). -/
theorem C10_counterexample :
    summarize_with_claude "data" (fun _ => LLMOutcome.apiConnectionError "down") =
      PyResult.raises (PyExn.nameError "anthropic") := by
  decide

/-- C10 amended: summarize_with_claude returns values of two shapes — the
bare tool-input dict when the response holds a generate_summary tool_use
block, and a (dict, 0) pair on the no-tool-use success path; on boundary
failures it propagates NameError instead of returning. The caller's
`.get("error")` succeeds on the bare dict and raises AttributeError on the
pair. -/
theorem C10_amended_return_shapes (t : String) (llm : Request → LLMOutcome) :
    (∀ resp input, llm (summaryRequest t) = LLMOutcome.success resp →
       findToolUse resp.content = some input →
       summarize_with_claude t llm = PyResult.ok (SummarizeReturn.single input)) ∧
    (∀ resp, llm (summaryRequest t) = LLMOutcome.success resp →
       findToolUse resp.content = none →
       summarize_with_claude t llm = PyResult.ok (SummarizeReturn.pair noToolUseSummary 0)) ∧
    ((llm (summaryRequest t)).isFailure = true →
       summarize_with_claude t llm = PyResult.raises (PyExn.nameError "anthropic")) ∧
    (∀ d : ToolInput, getErrorKey (SummarizeReturn.single d) = PyResult.ok d.error) ∧
    (∀ (d : SummaryDict) (n : Nat), getErrorKey (SummarizeReturn.pair d n) =
       PyResult.raises (PyExn.attributeError "tuple object has no attribute get")) := by
  refine ⟨?_, ?_, ?_, fun d => rfl, fun d n => rfl⟩
  · intro resp input hresp hfind
    unfold summarize_with_claude
    rw [hresp]
    simp [hfind]
  · intro resp hresp hfind
    unfold summarize_with_claude
    rw [hresp]
    simp [hfind]
  · intro hfail
    unfold summarize_with_claude
    cases hout : llm (summaryRequest t) with
    | success resp => rw [hout] at hfail; simp [LLMOutcome.isFailure] at hfail
    | apiConnectionError m => simp [exceptAnthropicClause, anthropicNameBound]
    | rateLimitError m => simp [exceptAnthropicClause, anthropicNameBound]
    | apiStatusError st m => simp [exceptAnthropicClause, anthropicNameBound]
    | otherError m => simp [exceptAnthropicClause, anthropicNameBound]

/-- A tool input as the model would send it for a summary. -/
def sampleToolInput : ToolInput :=
  { text := some "insights", next_steps := some "check correlations",
    chart_1 := some { ctype := "histogram", x := "sepal length (cm)", y := none },
    chart_2 := none, matplotlib_code := some "fig, ax = plt.subplots()",
    error := none }

/-- Witness for the amended C10: with a tool_use response the bare dict comes
back, and reading its error key succeeds. -/
theorem C10_amended_return_shapes_witness :
    summarize_with_claude "s"
      (fun _ => LLMOutcome.success
        { content := [ContentBlock.toolUse "generate_summary" sampleToolInput],
          usage := { input_tokens := 1, output_tokens := 1 } }) =
      PyResult.ok (SummarizeReturn.single sampleToolInput) :=
  (C10_amended_return_shapes "s"
    (fun _ => LLMOutcome.success
      { content := [ContentBlock.toolUse "generate_summary" sampleToolInput],
        usage := { input_tokens := 1, output_tokens := 1 } })).1
    { content := [ContentBlock.toolUse "generate_summary" sampleToolInput],
      usage := { input_tokens := 1, output_tokens := 1 } }
    sampleToolInput rfl (by decide)

end ClaudeDataSummarizer
